import Mathlib

set_option maxHeartbeats 1000000

/-!
Shallow embedding of MemProcFS `vmm/pluginmanager.c`: the plugin registry,
the registration gateway, the List/Read/Write dispatchers, the notification
broadcaster, teardown, and the three-phase bring-up.

Modelling conventions:
- the registry (`ctxVmm->pVmmVfsModuleList`) is a `List PLUGIN_LISTENTRY`
  whose head is the most recently registered entry (`PluginManager_Register`
  prepends); the null head pointer is the empty list;
- C pointers that may be null become `Option`; `HMODULE` library handles are
  `Option Nat` (the `Nat` is the handle's identity);
- wide strings become `String`; `_wcsicmp` equality is comparison of the
  lower-cased strings;
- module capability functions (`pfnList`, `pfnRead`, `pfnWrite`) are opaque
  Lean functions; `pfnNotify` / `pfnClose` return void and only their
  invocations are observable, so they are presence markers and each dispatch
  returns a trace of the invocations it performed;
- `LocalAlloc` is assumed to succeed (allocation failure is not modelled);
- external collaborators of bring-up (the built-in module initializers from
  `m_modules.h`, the filesystem scan, `LoadLibrary`/`GetProcAddress`) are
  abstracted as environment records describing their outcomes; their effect
  on the registry still goes exclusively through `PluginManager_Register`.
-/

/-- A process handle (`PVMM_PROCESS`); only the PID field is used here. -/
structure VMM_PROCESS where
  dwPID : Nat
deriving DecidableEq

/-- `VMMDLL_PLUGIN_REGINFO_MAGIC` from the plugin ABI header `vmmdll.h`
(the header is not under src/; only the constant's identity matters: the
registration gateway compares it for equality). -/
def VMMDLL_PLUGIN_REGINFO_MAGIC : Nat := 0xc0ffee663df9301c

/-- `VMMDLL_PLUGIN_REGINFO_VERSION`: maximum supported registration ABI
version (from `vmmdll.h`, not under src/; only comparisons matter). -/
def VMMDLL_PLUGIN_REGINFO_VERSION : Nat := 3

/-- Modelled from the spec: the supported declared size of a registration
record, i.e. `sizeof(VMMDLL_PLUGIN_REGINFO)` (`vmmdll.h` is not under src/).
Used only by the spec-side validation predicate `c1ClaimValidation`; the
embedded code itself never reads a record's size. -/
def VMMDLL_PLUGIN_REGINFO_SIZE : Nat := 256

/-- `VMMDLL_PLUGIN_CONTEXT_MAGIC` (from `vmmdll.h`, not under src/). -/
def VMMDLL_PLUGIN_CONTEXT_MAGIC : Nat := 0xc0ffee663df9301d

/-- `VMMDLL_PLUGIN_CONTEXT_VERSION` (from `vmmdll.h`, not under src/). -/
def VMMDLL_PLUGIN_CONTEXT_VERSION : Nat := 3

/-- `sizeof(VMMDLL_PLUGIN_CONTEXT)` (from `vmmdll.h`, not under src/). -/
def VMMDLL_PLUGIN_CONTEXT_SIZE : Nat := 72

/-- `VMMDLL_STATUS_SUCCESS` (NTSTATUS 0). Modelled from the spec: the status
constants live in `vmmdll.h`, which is not under src/. -/
def VMMDLL_STATUS_SUCCESS : Nat := 0

/-- `VMMDLL_STATUS_FILE_INVALID` (NTSTATUS 0xC0000098), the invalid-target
status returned by the Read/Write dispatchers when no module handles the
request. Modelled from the spec: `vmmdll.h` is not under src/. -/
def VMMDLL_STATUS_FILE_INVALID : Nat := 0xC0000098

/-- Case-insensitive folding of a wide string: per-character lower-casing,
as `towlower` does inside `_wcsicmp`. -/
def wlower (s : String) : List Char := s.data.map Char.toLower

/-- Case-insensitive wide-string equality: `_wcsicmp(a, b) == 0`. -/
def wcsicmpEq (a b : String) : Bool := wlower a == wlower b

/-- `VMMDLL_PLUGIN_CONTEXT`: the ephemeral per-dispatch call context built by
`PluginManager_ContextInitialize`. -/
structure VMMDLL_PLUGIN_CONTEXT where
  magic : Nat
  wVersion : Nat
  wSize : Nat
  dwPID : Nat
  pProcess : Option VMM_PROCESS
  wszModule : String
  wszPath : String
deriving DecidableEq

/-- The opaque file-list handle threaded through `pfnList` calls. -/
abbrev FileList := Nat

/-- Type of a module's list capability: `BOOL pfnList(ctx, pFileList)`; the
file-list out-parameter is threaded as state. -/
abbrev ListFn := VMMDLL_PLUGIN_CONTEXT → FileList → Bool × FileList

/-- Type of a module's read or write capability:
`NTSTATUS pfn(ctx, pb, cb, pcb, cbOffset)`. Arguments are the byte count and
offset; the result is the NTSTATUS together with the value the module wrote
to the transferred-byte-count out-parameter (`none` = not written). -/
abbrev RWFn := VMMDLL_PLUGIN_CONTEXT → Nat → Nat → Nat × Option Nat

/-- `PLUGIN_LISTENTRY`: one registered module. `pfnNotify` and `pfnClose`
return void, so only their presence is modelled; invocations are traced by
the dispatchers. -/
structure PLUGIN_LISTENTRY where
  hDLL : Option Nat
  wszModuleName : String
  fRootModule : Bool
  fProcessModule : Bool
  pfnList : Option ListFn
  pfnRead : Option RWFn
  pfnWrite : Option RWFn
  pfnNotify : Option Unit
  pfnClose : Option Unit

/-- `VMMDLL_PLUGIN_REGINFO`: a registration record (the `reg_info` and
`reg_fn` sub-structures are flattened). -/
structure VMMDLL_PLUGIN_REGINFO where
  magic : Nat
  wVersion : Nat
  wSize : Nat
  hDLL : Option Nat
  wszModuleName : String
  fRootModule : Bool
  fProcessModule : Bool
  pfnList : Option ListFn
  pfnRead : Option RWFn
  pfnWrite : Option RWFn
  pfnNotify : Option Unit
  pfnClose : Option Unit

/-- The registry: `ctxVmm->pVmmVfsModuleList` as a list, head first. -/
abbrev Registry := List PLUGIN_LISTENTRY

/-- One traced capability invocation: the target entry's library handle
together with the call context handed to the capability. -/
abbrev Invocation := Option Nat × VMMDLL_PLUGIN_CONTEXT

/-- `PluginManager_ModuleExists(hDLL, wszModule)`: scans the registry for an
entry with the given (non-null) library handle or a case-insensitively equal
(non-null) module name. -/
def PluginManager_ModuleExists (registry : Registry) (hDLL : Option Nat)
    (wszModule : Option String) : Bool :=
  match registry with
  | [] => false
  | pModule :: rest =>
    (match hDLL, pModule.hDLL with
     | some h, some hm => h == hm
     | _, _ => false) ||
    (match wszModule with
     | some s => wcsicmpEq s pModule.wszModuleName
     | none => false) ||
    PluginManager_ModuleExists rest hDLL wszModule

/-- `PluginManager_Register`: validate a registration record and, on success,
prepend the new entry. `LocalAlloc` is assumed to succeed. Returns the
success flag and the resulting registry. -/
def PluginManager_Register (registry : Registry)
    (pRegInfo : Option VMMDLL_PLUGIN_REGINFO) : Bool × Registry :=
  match pRegInfo with
  | none => (false, registry)
  | some ri =>
    if ri.magic ≠ VMMDLL_PLUGIN_REGINFO_MAGIC ∨
       VMMDLL_PLUGIN_REGINFO_VERSION < ri.wVersion then (false, registry)
    else if ri.pfnList.isNone = true ∨ ri.wszModuleName = "" ∨
       31 < ri.wszModuleName.length then (false, registry)
    else if PluginManager_ModuleExists registry none (some ri.wszModuleName) = true then
      (false, registry)
    else if ri.fRootModule = false ∧ ri.fProcessModule = false then (false, registry)
    else
      (true,
       { hDLL := ri.hDLL
         wszModuleName := ri.wszModuleName
         fRootModule := ri.fRootModule
         fProcessModule := ri.fProcessModule
         pfnList := ri.pfnList
         pfnRead := ri.pfnRead
         pfnWrite := ri.pfnWrite
         pfnNotify := ri.pfnNotify
         pfnClose := ri.pfnClose } :: registry)

/-- `PluginManager_ContextInitialize`: build the per-dispatch call context.
The process-context reference is forwarded only for built-in modules (a
non-null `hDLL` forces it to null); a missing process yields the `(DWORD)-1`
PID sentinel. -/
def PluginManager_ContextInit (pModule : PLUGIN_LISTENTRY)
    (pProcess : Option VMM_PROCESS) (wszPath : String) : VMMDLL_PLUGIN_CONTEXT :=
  { magic := VMMDLL_PLUGIN_CONTEXT_MAGIC
    wVersion := VMMDLL_PLUGIN_CONTEXT_VERSION
    wSize := VMMDLL_PLUGIN_CONTEXT_SIZE
    dwPID := match pProcess with
      | some p => p.dwPID
      | none => 4294967295
    pProcess := match pModule.hDLL with
      | some _ => none
      | none => pProcess
    wszModule := pModule.wszModuleName
    wszPath := wszPath }

/-- Scope filter applied by every dispatcher:
`(pProcess && fProcessModule) || (!pProcess && fRootModule)`. -/
def scopeMatch (pProcess : Option VMM_PROCESS) (pModule : PLUGIN_LISTENTRY) : Bool :=
  match pProcess with
  | some _ => pModule.fProcessModule
  | none => pModule.fRootModule

/-- `PluginManager_List`: find the first scope-matching entry with a list
capability and a case-insensitively matching name; invoke it and return its
result, the threaded file list and the invocation trace. No match returns
failure with the file list untouched. The statistics timer wrapper is
observability only and is not modelled. -/
def PluginManager_List (registry : Registry) (pProcess : Option VMM_PROCESS)
    (wszModule : String) (wszPath : Option String) (pFileList : FileList) :
    Bool × FileList × List Invocation :=
  match registry with
  | [] => (false, pFileList, [])
  | pModule :: rest =>
    if scopeMatch pProcess pModule = false then
      PluginManager_List rest pProcess wszModule wszPath pFileList
    else
      match pModule.pfnList with
      | some f =>
        if wcsicmpEq wszModule pModule.wszModuleName then
          let ctx := PluginManager_ContextInit pModule pProcess (wszPath.getD "")
          let r := f ctx pFileList
          (r.fst, r.snd, [(pModule.hDLL, ctx)])
        else PluginManager_List rest pProcess wszModule wszPath pFileList
      | none => PluginManager_List rest pProcess wszModule wszPath pFileList

/-- `PluginManager_Read`: same lookup as List but requiring a read
capability; returns the NTSTATUS, the transferred-byte-count out-parameter
(`none` = never written) and the invocation trace. No match returns
`VMMDLL_STATUS_FILE_INVALID` with the byte count unwritten. -/
def PluginManager_Read (registry : Registry) (pProcess : Option VMM_PROCESS)
    (wszModule : String) (wszPath : Option String) (cb : Nat) (cbOffset : Nat) :
    Nat × Option Nat × List Invocation :=
  match registry with
  | [] => (VMMDLL_STATUS_FILE_INVALID, none, [])
  | pModule :: rest =>
    if scopeMatch pProcess pModule = false then
      PluginManager_Read rest pProcess wszModule wszPath cb cbOffset
    else
      match pModule.pfnRead with
      | some f =>
        if wcsicmpEq wszModule pModule.wszModuleName then
          let ctx := PluginManager_ContextInit pModule pProcess (wszPath.getD "")
          let r := f ctx cb cbOffset
          (r.fst, r.snd, [(pModule.hDLL, ctx)])
        else PluginManager_Read rest pProcess wszModule wszPath cb cbOffset
      | none => PluginManager_Read rest pProcess wszModule wszPath cb cbOffset

/-- `PluginManager_Write`: symmetric to `PluginManager_Read`, requiring a
write capability. -/
def PluginManager_Write (registry : Registry) (pProcess : Option VMM_PROCESS)
    (wszModule : String) (wszPath : Option String) (cb : Nat) (cbOffset : Nat) :
    Nat × Option Nat × List Invocation :=
  match registry with
  | [] => (VMMDLL_STATUS_FILE_INVALID, none, [])
  | pModule :: rest =>
    if scopeMatch pProcess pModule = false then
      PluginManager_Write rest pProcess wszModule wszPath cb cbOffset
    else
      match pModule.pfnWrite with
      | some f =>
        if wcsicmpEq wszModule pModule.wszModuleName then
          let ctx := PluginManager_ContextInit pModule pProcess (wszPath.getD "")
          let r := f ctx cb cbOffset
          (r.fst, r.snd, [(pModule.hDLL, ctx)])
        else PluginManager_Write rest pProcess wszModule wszPath cb cbOffset
      | none => PluginManager_Write rest pProcess wszModule wszPath cb cbOffset

/-- One traced notify invocation: target module name, event id, payload,
payload size — the arguments are passed through unchanged. -/
abbrev NotifyInvocation := String × Nat × Option (List Nat) × Nat

/-- `PluginManager_Notify`: walk the whole registry (no scope filter),
invoking each entry's notify capability when present with the unchanged
event arguments; always returns TRUE. -/
def PluginManager_Notify (registry : Registry) (fEvent : Nat)
    (pvEvent : Option (List Nat)) (cbEvent : Nat) : Bool × List NotifyInvocation :=
  match registry with
  | [] => (true, [])
  | pModule :: rest =>
    let r := PluginManager_Notify rest fEvent pvEvent cbEvent
    match pModule.pfnNotify with
    | some _ => (r.fst, (pModule.wszModuleName, fEvent, pvEvent, cbEvent) :: r.snd)
    | none => r

/-- `PluginManager_Close`: pop the registry head until empty; per entry,
invoke the close capability when present (traced by module name), release
the entry's library when no remaining entry shares its handle (traced in the
freed list), free the entry. Returns (close trace, freed library handles,
final registry contents). -/
def PluginManager_Close (registry : Registry) :
    List String × List Nat × Registry :=
  match registry with
  | [] => ([], [], [])
  | pm :: rest =>
    let r := PluginManager_Close rest
    let closed := match pm.pfnClose with
      | some _ => pm.wszModuleName :: r.1
      | none => r.1
    let freed := match pm.hDLL with
      | some h =>
        if PluginManager_ModuleExists rest (some h) none then r.2.1
        else h :: r.2.1
      | none => r.2.1
    (closed, freed, r.2.2)

/-- Effect on the registry of a sequence of `PluginManager_Register` calls
(the only way external initializer code can touch the registry). -/
def runRegCalls (ris : List VMMDLL_PLUGIN_REGINFO) (registry : Registry) : Registry :=
  ris.foldl (fun acc ri => (PluginManager_Register acc (some ri)).snd) registry

/-- Outcome of one candidate file of the `plugins/m_*.dll` directory scan:
whether `LoadLibraryExA` succeeded (and with which handle), whether the
`InitializeVmmPlugin` entry point resolved, and the `PluginManager_Register`
calls the entry point performs when invoked. -/
structure DllCandidate where
  loadOk : Option Nat
  hasEntryPoint : Bool
  regCalls : List VMMDLL_PLUGIN_REGINFO

/-- Phase 2 of bring-up: for each candidate, skip on load failure; on a
missing entry point unload and skip; otherwise hand the template to the
entry point (its registrations run through `PluginManager_Register`). -/
def runDllScan (ds : List DllCandidate) (registry : Registry) : Registry :=
  ds.foldl
    (fun acc d =>
      match d.loadOk with
      | none => acc
      | some _ => if d.hasEntryPoint then runRegCalls d.regCalls acc else acc)
    registry

/-- Environment of `PluginManager_Initialize_Python`: outcomes of the three
interpreter-location attempts, of loading `python3.dll` and
`vmmpycplugin.dll`, of resolving `InitializeVmmPlugin`, and the register
calls the bridge performs. -/
structure PythonEnv where
  userPathSet : Bool
  userLoad3X : Option Nat
  exeLoad3X : Option Nat
  curLoad3X : Option Nat
  load3 : Option Nat
  loadPyPlugin : Option Nat
  hasEntryPoint : Bool
  pyRegCalls : List VMMDLL_PLUGIN_REGINFO

/-- Result of the scripting-bridge phase: the resulting registry, the
library handles freed before returning, and the handles acquired during the
phase but still held at return. -/
structure PyResult where
  registry : Registry
  freed : List Nat
  held : List Nat

/-- `PluginManager_Initialize_Python`: locate a supported interpreter via
the user path, the `python` sub-directory next to the executable, then the
default search path; load `python3.dll` and `vmmpycplugin.dll`; resolve and
invoke `InitializeVmmPlugin`; verify self-registration. Each path mirrors
the source's `FreeLibrary` calls exactly — including the self-registration
failure path, which returns without freeing anything. -/
def PluginManager_Initialize_Python (env : PythonEnv) (registry : Registry) : PyResult :=
  let hDllPython3X : Option Nat :=
    if env.userPathSet then env.userLoad3X
    else
      match env.exeLoad3X with
      | some h => some h
      | none => env.curLoad3X
  match hDllPython3X with
  | none => { registry := registry, freed := [], held := [] }
  | some h3x =>
    let hDllPython3 := env.load3
    match env.loadPyPlugin with
    | none =>
      { registry := registry, freed := h3x :: hDllPython3.toList, held := [] }
    | some hpy =>
      if env.hasEntryPoint = false then
        { registry := registry, freed := hpy :: h3x :: hDllPython3.toList, held := [] }
      else
        let registry' := runRegCalls env.pyRegCalls registry
        if PluginManager_ModuleExists registry' (some hpy) none = false then
          { registry := registry', freed := [],
            held := h3x :: hDllPython3.toList ++ [hpy] }
        else
          { registry := registry', freed := [h3x],
            held := hDllPython3.toList ++ [hpy] }

/-- `PluginManager_Initialize`: reject when the registry head is already
non-null; otherwise run the three bring-up phases (built-in registrations,
directory scan, scripting bridge) and return TRUE unconditionally. The
built-in initializers of `m_modules.h` are abstracted as the register calls
they perform. -/
def PluginManager_InitializeAll (envBuiltins : List VMMDLL_PLUGIN_REGINFO)
    (envDlls : List DllCandidate) (envPython : PythonEnv)
    (registry : Registry) : Bool × Registry :=
  if registry.isEmpty then
    let r1 := runRegCalls envBuiltins registry
    let r2 := runDllScan envDlls r1
    let r3 := (PluginManager_Initialize_Python envPython r2).registry
    (true, r3)
  else (false, registry)

/-! ## Spec-side definitions

These follow the spec's words, to be compared with the embedded code. -/

/-- The claim's validation predicate for registration, following the spec's
words: magic, version, declared size, non-empty bounded name, list
capability, at least one scope flag, and no case-insensitive name collision
with an existing entry. -/
def c1ClaimValidation (registry : Registry) (ri : VMMDLL_PLUGIN_REGINFO) : Bool :=
  (ri.magic == VMMDLL_PLUGIN_REGINFO_MAGIC) &&
  (decide (ri.wVersion ≤ VMMDLL_PLUGIN_REGINFO_VERSION)) &&
  (ri.wSize == VMMDLL_PLUGIN_REGINFO_SIZE) &&
  (!(ri.wszModuleName == "")) &&
  (decide (ri.wszModuleName.length ≤ 31)) &&
  ri.pfnList.isSome &&
  (ri.fRootModule || ri.fProcessModule) &&
  (!PluginManager_ModuleExists registry none (some ri.wszModuleName))

/-- Spec-side lookup: the first registry entry whose scope matches the call
shape and whose name matches case-insensitively. -/
def findFirstMatch (pProcess : Option VMM_PROCESS) (wszModule : String) :
    Registry → Option PLUGIN_LISTENTRY
  | [] => none
  | pModule :: rest =>
    if scopeMatch pProcess pModule && wcsicmpEq wszModule pModule.wszModuleName then
      some pModule
    else findFirstMatch pProcess wszModule rest

/-- All registered module names are pairwise distinct case-insensitively. -/
def distinctNames (registry : Registry) : Prop :=
  List.Pairwise
    (fun a b => wlower a.wszModuleName ≠ wlower b.wszModuleName) registry

/-- The registry invariant of the spec: names pairwise distinct
case-insensitively, every entry carries at least one scope flag and a
non-null list capability. -/
def RegistryInv (registry : Registry) : Prop :=
  distinctNames registry ∧
  ∀ e ∈ registry,
    (e.fRootModule = true ∨ e.fProcessModule = true) ∧ e.pfnList.isSome = true

/-- Registry states reachable through the registry-mutating operations:
the initial empty registry, registration, bring-up, and teardown (the
dispatchers and the broadcaster never produce a registry). -/
inductive Reachable : Registry → Prop where
  | empty : Reachable []
  | register (r : Registry) (ri : Option VMMDLL_PLUGIN_REGINFO) :
      Reachable r → Reachable (PluginManager_Register r ri).snd
  | bringup (envB : List VMMDLL_PLUGIN_REGINFO) (envD : List DllCandidate)
      (envP : PythonEnv) (r : Registry) :
      Reachable r → Reachable (PluginManager_InitializeAll envB envD envP r).snd
  | teardown (r : Registry) : Reachable r → Reachable (PluginManager_Close r).2.2

/-! ## Concrete fixtures used by counterexamples and witnesses -/

/-- A concrete listing capability for the fixtures below. -/
def witListFn : ListFn := fun _ pFileList => (true, pFileList + 1)

/-- A registration record that passes every check the gateway performs but
declares a size different from the supported structure size. -/
def riWit : VMMDLL_PLUGIN_REGINFO :=
  { magic := VMMDLL_PLUGIN_REGINFO_MAGIC
    wVersion := VMMDLL_PLUGIN_REGINFO_VERSION
    wSize := VMMDLL_PLUGIN_REGINFO_SIZE + 1
    hDLL := none
    wszModuleName := "vfsroot"
    fRootModule := true
    fProcessModule := false
    pfnList := some witListFn
    pfnRead := none
    pfnWrite := none
    pfnNotify := none
    pfnClose := none }

/-- A module registered process-scope only, as in the spec's List example. -/
def entryA : PLUGIN_LISTENTRY :=
  { hDLL := none
    wszModuleName := "A"
    fRootModule := false
    fProcessModule := true
    pfnList := some witListFn
    pfnRead := none
    pfnWrite := none
    pfnNotify := none
    pfnClose := none }

/-- A root-scope module with a list capability but neither read nor write
capability. -/
def entryNoRW : PLUGIN_LISTENTRY :=
  { hDLL := none
    wszModuleName := "stat"
    fRootModule := true
    fProcessModule := false
    pfnList := some witListFn
    pfnRead := none
    pfnWrite := none
    pfnNotify := none
    pfnClose := none }

/-- A module backed by a native library (handle 7). -/
def entryNative : PLUGIN_LISTENTRY :=
  { hDLL := some 7
    wszModuleName := "pym"
    fRootModule := true
    fProcessModule := true
    pfnList := some witListFn
    pfnRead := none
    pfnWrite := none
    pfnNotify := none
    pfnClose := none }

/-- A concrete process with PID 42. -/
def procWit : VMM_PROCESS := { dwPID := 42 }

/-- The call context the dispatchers build for `entryNative` when a process
is supplied. -/
def ctxNative : VMMDLL_PLUGIN_CONTEXT :=
  PluginManager_ContextInit entryNative (some procWit) ""

/-- A scripting-bridge environment in which the interpreter is not found at
the user-configured path: the phase is a no-op. -/
def pyEnvNone : PythonEnv :=
  { userPathSet := true
    userLoad3X := none
    exeLoad3X := none
    curLoad3X := none
    load3 := none
    loadPyPlugin := none
    hasEntryPoint := false
    pyRegCalls := [] }

/-- A scripting-bridge environment in which the interpreter (handle 100),
`python3.dll` (101) and the bridge library (102) all load and the entry
point resolves, but the bridge never self-registers. -/
def pyEnvLeak : PythonEnv :=
  { userPathSet := false
    userLoad3X := none
    exeLoad3X := some 100
    curLoad3X := none
    load3 := some 101
    loadPyPlugin := some 102
    hasEntryPoint := true
    pyRegCalls := [] }

/-- Registry state after a first bring-up that registered one built-in. -/
def c6State : Registry :=
  (PluginManager_InitializeAll [riWit] [] pyEnvNone []).snd

/-- Registry state after one successful registration. -/
def c8State : Registry := (PluginManager_Register [] (some riWit)).snd

/-! ## Helper lemmas -/

/-- Name-only `PluginManager_ModuleExists` succeeds exactly when some entry's
name matches case-insensitively. -/
theorem moduleExists_name_iff (registry : Registry) (s : String) :
    PluginManager_ModuleExists registry none (some s) = true ↔
      ∃ e ∈ registry, wlower s = wlower e.wszModuleName := by
  induction registry with
  | nil => simp [PluginManager_ModuleExists]
  | cons pm rest ih =>
    simp [PluginManager_ModuleExists, wcsicmpEq, ih]

/-- Handle-only `PluginManager_ModuleExists` succeeds exactly when some entry
carries the handle. -/
theorem moduleExists_handle_iff (registry : Registry) (h : Nat) :
    PluginManager_ModuleExists registry (some h) none = true ↔
      some h ∈ registry.map (fun e => e.hDLL) := by
  induction registry with
  | nil => simp [PluginManager_ModuleExists]
  | cons pm rest ih =>
    cases hd : pm.hDLL <;>
      simp [PluginManager_ModuleExists, hd, ih]

/-! ## C1 -/

/-- C1 counterexample: a registration record that mismatches the supported
declared size but satisfies every remaining condition is accepted by
`PluginManager_Register` — the gateway never reads the declared size, so the
claim's "success iff full validation (including size)" is false at this
input. -/
theorem C1_size_unchecked_counterexample :
    (PluginManager_Register [] (some riWit)).fst = true ∧
    c1ClaimValidation [] riWit = false := by
  constructor
  · rfl
  · rfl

/-- C1 (amended: the gateway does not validate the declared size; all other
conjuncts stand): `PluginManager_Register` succeeds iff the magic matches,
the version does not exceed the supported maximum, a list capability is
present, the name is non-empty and at most 31 code units, at least one scope
flag is set, and the name collides with no existing entry case-insensitively
(first registrant wins); every failure leaves the registry unchanged, with
no partial insert, and a null record pointer is likewise rejected without
change. -/
theorem C1_register_success_iff (registry : Registry) (ri : VMMDLL_PLUGIN_REGINFO) :
    ((PluginManager_Register registry (some ri)).fst = true ↔
      (ri.magic = VMMDLL_PLUGIN_REGINFO_MAGIC ∧
       ri.wVersion ≤ VMMDLL_PLUGIN_REGINFO_VERSION ∧
       ri.pfnList.isSome = true ∧
       ri.wszModuleName ≠ "" ∧
       ri.wszModuleName.length ≤ 31 ∧
       (ri.fRootModule = true ∨ ri.fProcessModule = true) ∧
       ∀ e ∈ registry, wlower ri.wszModuleName ≠ wlower e.wszModuleName)) ∧
    ((PluginManager_Register registry (some ri)).fst = false →
      (PluginManager_Register registry (some ri)).snd = registry) ∧
    (PluginManager_Register registry none).fst = false ∧
    (PluginManager_Register registry none).snd = registry := by
  refine ⟨?_, ?_, rfl, rfl⟩
  · show (PluginManager_Register registry (some ri)).fst = true ↔ _
    simp only [PluginManager_Register]
    split_ifs with h1 h2 h3 h4
    · simp only [show ¬(false = true) from by simp, false_iff]
      rintro ⟨hm, hv, -⟩
      rcases h1 with h1 | h1
      · exact h1 hm
      · exact absurd hv (not_le.mpr h1)
    · simp only [show ¬(false = true) from by simp, false_iff]
      rintro ⟨-, -, hl, hn, hlen, -⟩
      rcases h2 with h2 | h2 | h2
      · cases hx : ri.pfnList <;> rw [hx] at h2 hl <;> simp_all
      · exact hn h2
      · exact absurd hlen (not_le.mpr h2)
    · simp only [show ¬(false = true) from by simp, false_iff]
      rintro ⟨-, -, -, -, -, -, hu⟩
      obtain ⟨e, he, heq⟩ := (moduleExists_name_iff registry ri.wszModuleName).mp h3
      exact hu e he heq
    · simp only [show ¬(false = true) from by simp, false_iff]
      rintro ⟨-, -, -, -, -, hs, -⟩
      rcases hs with hs | hs
      · rw [h4.1] at hs; exact Bool.false_ne_true hs
      · rw [h4.2] at hs; exact Bool.false_ne_true hs
    · simp only [true_iff]
      push_neg at h1 h2 h4
      refine ⟨h1.1, h1.2, ?_, h2.2.1, h2.2.2, ?_, ?_⟩
      · cases hx : ri.pfnList with
        | none => rw [hx] at h2; exact absurd rfl h2.1
        | some f => rfl
      · rcases Bool.eq_false_or_eq_true ri.fRootModule with hx | hx
        · exact Or.inl hx
        · cases hy : ri.fProcessModule with
          | false => exact absurd hy (h4 hx)
          | true => exact Or.inr rfl
      · intro e he heq
        exact h3 ((moduleExists_name_iff registry ri.wszModuleName).mpr ⟨e, he, heq⟩)
  · show (PluginManager_Register registry (some ri)).fst = false →
      (PluginManager_Register registry (some ri)).snd = registry
    simp only [PluginManager_Register]
    split_ifs <;> intro hf
    · rfl
    · rfl
    · rfl
    · rfl
    · exact absurd hf (by simp)

/-! ## C4 -/

/-- C4: `PluginManager_Notify` always returns success and its invocation
trace is exactly one invocation per registered entry possessing a notify
capability, in registry order, regardless of scope flags, with the event id,
payload and payload size passed through unchanged. -/
theorem C4_notify_broadcast (registry : Registry) (fEvent : Nat)
    (pvEvent : Option (List Nat)) (cbEvent : Nat) :
    (PluginManager_Notify registry fEvent pvEvent cbEvent).fst = true ∧
    (PluginManager_Notify registry fEvent pvEvent cbEvent).snd =
      registry.filterMap (fun e =>
        match e.pfnNotify with
        | some _ => some (e.wszModuleName, fEvent, pvEvent, cbEvent)
        | none => none) := by
  induction registry with
  | nil => exact ⟨rfl, rfl⟩
  | cons pm rest ih =>
    cases hn : pm.pfnNotify <;>
      simp [PluginManager_Notify, List.filterMap_cons, hn, ih.1, ih.2]

/-! ## C7 -/

/-- C7 (code bug): when the interpreter (handle 100), the companion
`python3.dll` (101) and the bridge library (102) all load and the entry
point resolves but the bridge fails to self-register,
`PluginManager_Initialize_Python` returns from the failing sub-step without
releasing any of the three handles it acquired — contradicting the spec's
requirement that every partially acquired handle of this phase be released
before returning. -/
theorem C7_python_selfreg_handle_leak :
    (PluginManager_Initialize_Python pyEnvLeak []).freed = [] ∧
    (PluginManager_Initialize_Python pyEnvLeak []).held = [100, 101, 102] ∧
    PluginManager_ModuleExists
      (PluginManager_Initialize_Python pyEnvLeak []).registry (some 102) none = false := by
  refine ⟨rfl, rfl, rfl⟩

/-! ## C10 -/

/-- C10: whenever the registry is empty on entry, bring-up returns success
unconditionally — for every outcome of the built-in registrations, of the
plugins-directory scan and of the scripting-bridge phase, including
environments in which nothing loads and zero modules register. -/
theorem C10_bringup_succeeds_on_empty (envB : List VMMDLL_PLUGIN_REGINFO)
    (envD : List DllCandidate) (envP : PythonEnv) :
    (PluginManager_InitializeAll envB envD envP []).fst = true := rfl

/-! ## C2 -/

/-- C2: over any registry whose entries all carry a list capability (the
registry invariant), `PluginManager_List` invokes the list capability of
exactly the first entry whose scope matches the call shape and whose name
matches case-insensitively — handing it the per-call context and returning
that capability's result, with an invocation trace of length one — and when
no such entry exists it returns failure with the file list untouched and an
empty trace. In particular a process-scope-only module is unreachable
without a process and is invoked exactly once with one. -/
theorem C2_list_dispatch (registry : Registry) (pProcess : Option VMM_PROCESS)
    (wszModule : String) (wszPath : Option String) (pFileList : FileList)
    (hcap : ∀ e ∈ registry, e.pfnList.isSome = true) :
    (findFirstMatch pProcess wszModule registry = none →
      PluginManager_List registry pProcess wszModule wszPath pFileList =
        (false, pFileList, [])) ∧
    (∀ e f, findFirstMatch pProcess wszModule registry = some e →
      e.pfnList = some f →
      PluginManager_List registry pProcess wszModule wszPath pFileList =
        ((f (PluginManager_ContextInit e pProcess (wszPath.getD "")) pFileList).fst,
         (f (PluginManager_ContextInit e pProcess (wszPath.getD "")) pFileList).snd,
         [(e.hDLL, PluginManager_ContextInit e pProcess (wszPath.getD ""))])) := by
  induction registry with
  | nil =>
    exact ⟨fun _ => rfl, fun e f h => by simp [findFirstMatch] at h⟩
  | cons pm rest ih =>
    have hpm : pm.pfnList.isSome = true := hcap pm (List.mem_cons_self pm rest)
    have hrest := ih (fun e he => hcap e (List.mem_cons_of_mem pm he))
    obtain ⟨f0, hf0⟩ := Option.isSome_iff_exists.mp hpm
    by_cases hs : scopeMatch pProcess pm = true
    · by_cases hn : wcsicmpEq wszModule pm.wszModuleName = true
      · refine ⟨fun hfm => ?_, fun e f hfm hef => ?_⟩
        · simp [findFirstMatch, hs, hn] at hfm
        · have hpe : pm = e := by
            simpa [findFirstMatch, hs, hn] using hfm
          subst hpe
          simp [PluginManager_List, hs, hn, hef]
      · refine ⟨fun hfm => ?_, fun e f hfm hef => ?_⟩
        · have hfm' : findFirstMatch pProcess wszModule rest = none := by
            simpa [findFirstMatch, hs, hn] using hfm
          simpa [PluginManager_List, hs, hn, hf0] using hrest.1 hfm'
        · have hfm' : findFirstMatch pProcess wszModule rest = some e := by
            simpa [findFirstMatch, hs, hn] using hfm
          simpa [PluginManager_List, hs, hn, hf0] using hrest.2 e f hfm' hef
    · have hs' : scopeMatch pProcess pm = false := by
        rwa [Bool.not_eq_true] at hs
      refine ⟨fun hfm => ?_, fun e f hfm hef => ?_⟩
      · have hfm' : findFirstMatch pProcess wszModule rest = none := by
          simpa [findFirstMatch, hs'] using hfm
        simpa [PluginManager_List, hs'] using hrest.1 hfm'
      · have hfm' : findFirstMatch pProcess wszModule rest = some e := by
          simpa [findFirstMatch, hs'] using hfm
        simpa [PluginManager_List, hs'] using hrest.2 e f hfm' hef

/-- C2 witness: the process-scope-only module `entryA` with a concrete
process, instantiating the dispatch theorem. -/
theorem C2_list_dispatch_witness :
    (∀ e ∈ [entryA], e.pfnList.isSome = true) ∧
    ((findFirstMatch (some procWit) "A" [entryA] = none →
      PluginManager_List [entryA] (some procWit) "A" none 0 = (false, 0, [])) ∧
    (∀ e f, findFirstMatch (some procWit) "A" [entryA] = some e →
      e.pfnList = some f →
      PluginManager_List [entryA] (some procWit) "A" none 0 =
        ((f (PluginManager_ContextInit e (some procWit) ((none : Option String).getD "")) 0).fst,
         (f (PluginManager_ContextInit e (some procWit) ((none : Option String).getD "")) 0).snd,
         [(e.hDLL, PluginManager_ContextInit e (some procWit) ((none : Option String).getD ""))]))) :=
  ⟨fun e he => by
      rw [List.mem_singleton] at he
      subst he
      rfl,
   C2_list_dispatch [entryA] (some procWit) "A" none 0 (fun e he => by
      rw [List.mem_singleton] at he
      subst he
      rfl)⟩

/-! ## C3 -/

/-- If no registry entry's name matches, the Read dispatcher falls through to
the invalid-target result with the byte count unwritten. -/
theorem read_of_no_name_match (registry : Registry) (pProcess : Option VMM_PROCESS)
    (wszModule : String) (wszPath : Option String) (cb cbOffset : Nat)
    (h : ∀ e ∈ registry, wcsicmpEq wszModule e.wszModuleName = false) :
    PluginManager_Read registry pProcess wszModule wszPath cb cbOffset =
      (VMMDLL_STATUS_FILE_INVALID, none, []) := by
  induction registry with
  | nil => rfl
  | cons pm rest ih =>
    have hh := h pm (List.mem_cons_self pm rest)
    have ihr := ih (fun e he => h e (List.mem_cons_of_mem pm he))
    by_cases hs : scopeMatch pProcess pm = false
    · simpa [PluginManager_Read, hs] using ihr
    · cases hf : pm.pfnRead with
      | none => simpa [PluginManager_Read, hs, hf] using ihr
      | some f => simpa [PluginManager_Read, hs, hf, hh] using ihr

/-- If no registry entry's name matches, the Write dispatcher falls through
to the invalid-target result with the byte count unwritten. -/
theorem write_of_no_name_match (registry : Registry) (pProcess : Option VMM_PROCESS)
    (wszModule : String) (wszPath : Option String) (cb cbOffset : Nat)
    (h : ∀ e ∈ registry, wcsicmpEq wszModule e.wszModuleName = false) :
    PluginManager_Write registry pProcess wszModule wszPath cb cbOffset =
      (VMMDLL_STATUS_FILE_INVALID, none, []) := by
  induction registry with
  | nil => rfl
  | cons pm rest ih =>
    have hh := h pm (List.mem_cons_self pm rest)
    have ihr := ih (fun e he => h e (List.mem_cons_of_mem pm he))
    by_cases hs : scopeMatch pProcess pm = false
    · simpa [PluginManager_Write, hs] using ihr
    · cases hf : pm.pfnWrite with
      | none => simpa [PluginManager_Write, hs, hf] using ihr
      | some f => simpa [PluginManager_Write, hs, hf, hh] using ihr

/-- When no entry matches scope and name, Read returns invalid-target with
no byte count written. -/
theorem read_of_firstMatch_none (registry : Registry) (pProcess : Option VMM_PROCESS)
    (wszModule : String) (wszPath : Option String) (cb cbOffset : Nat)
    (hfm : findFirstMatch pProcess wszModule registry = none) :
    PluginManager_Read registry pProcess wszModule wszPath cb cbOffset =
      (VMMDLL_STATUS_FILE_INVALID, none, []) := by
  induction registry with
  | nil => rfl
  | cons pm rest ih =>
    by_cases hs : scopeMatch pProcess pm = true
    · by_cases hn : wcsicmpEq wszModule pm.wszModuleName = true
      · simp [findFirstMatch, hs, hn] at hfm
      · have hfm' : findFirstMatch pProcess wszModule rest = none := by
          simpa [findFirstMatch, hs, hn] using hfm
        cases hf : pm.pfnRead with
        | none => simpa [PluginManager_Read, hs, hf] using ih hfm'
        | some f => simpa [PluginManager_Read, hs, hf, hn] using ih hfm'
    · have hs' : scopeMatch pProcess pm = false := by rwa [Bool.not_eq_true] at hs
      have hfm' : findFirstMatch pProcess wszModule rest = none := by
        simpa [findFirstMatch, hs'] using hfm
      simpa [PluginManager_Read, hs'] using ih hfm'

/-- When no entry matches scope and name, Write returns invalid-target with
no byte count written. -/
theorem write_of_firstMatch_none (registry : Registry) (pProcess : Option VMM_PROCESS)
    (wszModule : String) (wszPath : Option String) (cb cbOffset : Nat)
    (hfm : findFirstMatch pProcess wszModule registry = none) :
    PluginManager_Write registry pProcess wszModule wszPath cb cbOffset =
      (VMMDLL_STATUS_FILE_INVALID, none, []) := by
  induction registry with
  | nil => rfl
  | cons pm rest ih =>
    by_cases hs : scopeMatch pProcess pm = true
    · by_cases hn : wcsicmpEq wszModule pm.wszModuleName = true
      · simp [findFirstMatch, hs, hn] at hfm
      · have hfm' : findFirstMatch pProcess wszModule rest = none := by
          simpa [findFirstMatch, hs, hn] using hfm
        cases hf : pm.pfnWrite with
        | none => simpa [PluginManager_Write, hs, hf] using ih hfm'
        | some f => simpa [PluginManager_Write, hs, hf, hn] using ih hfm'
    · have hs' : scopeMatch pProcess pm = false := by rwa [Bool.not_eq_true] at hs
      have hfm' : findFirstMatch pProcess wszModule rest = none := by
        simpa [findFirstMatch, hs'] using hfm
      simpa [PluginManager_Write, hs'] using ih hfm'

/-- C3: under the registry's unique-name invariant, a scope/name lookup that
finds a module lacking the read (resp. write) capability makes
`PluginManager_Read` (resp. `PluginManager_Write`) return exactly the same
invalid-target outcome as when no module matches at all — status
`VMMDLL_STATUS_FILE_INVALID`, transferred-byte count not written, no module
invoked — and the invalid-target status is distinct from the success
status. -/
theorem C3_read_write_invalid_target (registry : Registry)
    (pProcess : Option VMM_PROCESS) (wszModule : String) (wszPath : Option String)
    (cb cbOffset : Nat) (hnames : distinctNames registry) :
    (findFirstMatch pProcess wszModule registry = none →
      PluginManager_Read registry pProcess wszModule wszPath cb cbOffset =
        (VMMDLL_STATUS_FILE_INVALID, none, []) ∧
      PluginManager_Write registry pProcess wszModule wszPath cb cbOffset =
        (VMMDLL_STATUS_FILE_INVALID, none, [])) ∧
    (∀ e, findFirstMatch pProcess wszModule registry = some e →
      (e.pfnRead = none →
        PluginManager_Read registry pProcess wszModule wszPath cb cbOffset =
          (VMMDLL_STATUS_FILE_INVALID, none, [])) ∧
      (e.pfnWrite = none →
        PluginManager_Write registry pProcess wszModule wszPath cb cbOffset =
          (VMMDLL_STATUS_FILE_INVALID, none, []))) ∧
    VMMDLL_STATUS_FILE_INVALID ≠ VMMDLL_STATUS_SUCCESS := by
  refine ⟨fun hfm =>
      ⟨read_of_firstMatch_none registry pProcess wszModule wszPath cb cbOffset hfm,
       write_of_firstMatch_none registry pProcess wszModule wszPath cb cbOffset hfm⟩,
    ?_, by decide⟩
  induction registry with
  | nil =>
    intro e hfm
    simp [findFirstMatch] at hfm
  | cons pm rest ih =>
    intro e hfm
    by_cases hs : scopeMatch pProcess pm = true
    · by_cases hn : wcsicmpEq wszModule pm.wszModuleName = true
      · have hpe : pm = e := by simpa [findFirstMatch, hs, hn] using hfm
        subst hpe
        have hlow : wlower wszModule = wlower pm.wszModuleName := by
          simpa [wcsicmpEq] using hn
        have hhead : ∀ b ∈ rest, wlower pm.wszModuleName ≠ wlower b.wszModuleName :=
          (List.pairwise_cons.mp hnames).1
        have hnorest : ∀ b ∈ rest, wcsicmpEq wszModule b.wszModuleName = false := by
          intro b hb
          simp only [wcsicmpEq, beq_eq_false_iff_ne, ne_eq]
          rw [hlow]
          exact hhead b hb
        refine ⟨fun hrd => ?_, fun hwr => ?_⟩
        · simpa [PluginManager_Read, hs, hn, hrd] using
            read_of_no_name_match rest pProcess wszModule wszPath cb cbOffset hnorest
        · simpa [PluginManager_Write, hs, hn, hwr] using
            write_of_no_name_match rest pProcess wszModule wszPath cb cbOffset hnorest
      · have hfm' : findFirstMatch pProcess wszModule rest = some e := by
          simpa [findFirstMatch, hs, hn] using hfm
        have ihr := ih (List.pairwise_cons.mp hnames).2 e hfm'
        refine ⟨fun hrd => ?_, fun hwr => ?_⟩
        · cases hf : pm.pfnRead with
          | none => simpa [PluginManager_Read, hs, hf] using ihr.1 hrd
          | some f => simpa [PluginManager_Read, hs, hf, hn] using ihr.1 hrd
        · cases hf : pm.pfnWrite with
          | none => simpa [PluginManager_Write, hs, hf] using ihr.2 hwr
          | some f => simpa [PluginManager_Write, hs, hf, hn] using ihr.2 hwr
    · have hs' : scopeMatch pProcess pm = false := by rwa [Bool.not_eq_true] at hs
      have hfm' : findFirstMatch pProcess wszModule rest = some e := by
        simpa [findFirstMatch, hs'] using hfm
      have ihr := ih (List.pairwise_cons.mp hnames).2 e hfm'
      exact ⟨fun hrd => by simpa [PluginManager_Read, hs'] using ihr.1 hrd,
             fun hwr => by simpa [PluginManager_Write, hs'] using ihr.2 hwr⟩

/-- C3 witness: the root-scope module `entryNoRW` has neither read nor write
capability; Read and Write on it return the invalid-target outcome. -/
theorem C3_read_write_invalid_target_witness :
    distinctNames [entryNoRW] ∧
    ((findFirstMatch none "stat" [entryNoRW] = none →
      PluginManager_Read [entryNoRW] none "stat" none 16 0 =
        (VMMDLL_STATUS_FILE_INVALID, none, []) ∧
      PluginManager_Write [entryNoRW] none "stat" none 16 0 =
        (VMMDLL_STATUS_FILE_INVALID, none, [])) ∧
    (∀ e, findFirstMatch none "stat" [entryNoRW] = some e →
      (e.pfnRead = none →
        PluginManager_Read [entryNoRW] none "stat" none 16 0 =
          (VMMDLL_STATUS_FILE_INVALID, none, [])) ∧
      (e.pfnWrite = none →
        PluginManager_Write [entryNoRW] none "stat" none 16 0 =
          (VMMDLL_STATUS_FILE_INVALID, none, []))) ∧
    VMMDLL_STATUS_FILE_INVALID ≠ VMMDLL_STATUS_SUCCESS) :=
  ⟨by simp [distinctNames],
   C3_read_write_invalid_target [entryNoRW] none "stat" none 16 0
     (by simp [distinctNames])⟩

/-! ## C5 -/

/-- Teardown drains the registry completely: the resulting module list is
the null "not yet initialized" sentinel. -/
theorem close_registry_drained (registry : Registry) :
    (PluginManager_Close registry).2.2 = [] := by
  induction registry with
  | nil => rfl
  | cons pm rest ih => simpa [PluginManager_Close] using ih

/-- C5: teardown invokes each registered entry's close capability exactly
once when present (the close trace is exactly the in-order projection of the
entries possessing one), releases each distinct native library exactly once
— a shared handle is freed only when its last referencing entry is removed,
so its count in the freed trace is one — and leaves the registry reset to
the empty "not yet initialized" sentinel. -/
theorem C5_close_teardown (registry : Registry) :
    (PluginManager_Close registry).1 =
      registry.filterMap (fun e =>
        match e.pfnClose with
        | some _ => some e.wszModuleName
        | none => none) ∧
    (∀ h : Nat, ((PluginManager_Close registry).2.1).count h =
      (if some h ∈ registry.map (fun e => e.hDLL) then 1 else 0)) ∧
    (PluginManager_Close registry).2.2 = [] := by
  refine ⟨?_, ?_, close_registry_drained registry⟩
  · induction registry with
    | nil => rfl
    | cons pm rest ih =>
      cases hc : pm.pfnClose <;>
        simp [PluginManager_Close, List.filterMap_cons, hc, ih]
  · intro h
    induction registry with
    | nil => simp [PluginManager_Close]
    | cons pm rest ih =>
      cases hd : pm.hDLL with
      | none =>
        simpa [PluginManager_Close, hd] using ih
      | some h0 =>
        by_cases hex : PluginManager_ModuleExists rest (some h0) none = true
        · have hmem : some h0 ∈ rest.map (fun e => e.hDLL) :=
            (moduleExists_handle_iff rest h0).mp hex
          by_cases heq : h = h0
          · subst heq
            simp [PluginManager_Close, hd, hex, hmem, ih]
          · simp [PluginManager_Close, hd, hex, heq, ih]
        · have hex' : PluginManager_ModuleExists rest (some h0) none = false := by
            rwa [Bool.not_eq_true] at hex
          have hnmem : some h0 ∉ rest.map (fun e => e.hDLL) := fun hm =>
            hex ((moduleExists_handle_iff rest h0).mpr hm)
          by_cases heq : h = h0
          · subst heq
            simp [PluginManager_Close, hd, hex', hnmem, List.count_cons, ih]
          · simp [PluginManager_Close, hd, hex', heq, List.count_cons, ih]

/-! ## C6 -/

/-- C6: a bring-up invocation that finds the registry already non-empty is
rejected with the "already initialized" failure result and performs no side
effects — the registry it returns is exactly the registry it was given, so
the state after a second call is identical to the state after the first. -/
theorem C6_second_bringup_rejected (envB : List VMMDLL_PLUGIN_REGINFO)
    (envD : List DllCandidate) (envP : PythonEnv) (registry : Registry)
    (hne : registry.isEmpty = false) :
    PluginManager_InitializeAll envB envD envP registry = (false, registry) := by
  simp [PluginManager_InitializeAll, hne]

/-- C6 witness: after a first bring-up registered one built-in module, a
second bring-up is rejected and leaves that state untouched. -/
theorem C6_second_bringup_rejected_witness :
    c6State.isEmpty = false ∧
    PluginManager_InitializeAll [] [] pyEnvNone c6State = (false, c6State) :=
  ⟨rfl, C6_second_bringup_rejected [] [] pyEnvNone c6State rfl⟩

/-! ## C8 -/

/-- The registration gateway preserves the registry invariant. -/
theorem register_preserves_inv (registry : Registry)
    (ri : Option VMMDLL_PLUGIN_REGINFO) (hinv : RegistryInv registry) :
    RegistryInv (PluginManager_Register registry ri).snd := by
  match ri with
  | none => exact hinv
  | some ri =>
    simp only [PluginManager_Register]
    split_ifs with h1 h2 h3 h4
    · exact hinv
    · exact hinv
    · exact hinv
    · exact hinv
    · push_neg at h2 h4
      refine ⟨?_, ?_⟩
      · refine List.Pairwise.cons ?_ hinv.1
        intro b hb hcol
        exact h3 ((moduleExists_name_iff registry ri.wszModuleName).mpr ⟨b, hb, hcol⟩)
      · intro e he
        rcases List.mem_cons.mp he with he | he
        · subst he
          refine ⟨?_, ?_⟩
          · rcases Bool.eq_false_or_eq_true ri.fRootModule with hx | hx
            · exact Or.inl hx
            · cases hy : ri.fProcessModule with
              | false => exact absurd hy (h4 hx)
              | true => exact Or.inr rfl
          · show ri.pfnList.isSome = true
            cases hx : ri.pfnList with
            | none => rw [hx] at h2; exact absurd rfl h2.1
            | some f => rfl
        · exact hinv.2 e he

/-- A sequence of register calls preserves the registry invariant. -/
theorem foldl_register_inv (ris : List VMMDLL_PLUGIN_REGINFO) (registry : Registry)
    (hinv : RegistryInv registry) : RegistryInv (runRegCalls ris registry) := by
  induction ris generalizing registry with
  | nil => exact hinv
  | cons ri rest ih =>
    exact ih (PluginManager_Register registry (some ri)).snd
      (register_preserves_inv registry (some ri) hinv)

/-- The plugins-directory scan preserves the registry invariant. -/
theorem dllScan_inv (ds : List DllCandidate) (registry : Registry)
    (hinv : RegistryInv registry) : RegistryInv (runDllScan ds registry) := by
  induction ds generalizing registry with
  | nil => exact hinv
  | cons d rest ih =>
    simp only [runDllScan, List.foldl_cons] at ih ⊢
    cases hl : d.loadOk with
    | none => simpa [hl] using ih registry hinv
    | some hh =>
      cases hep : d.hasEntryPoint with
      | false => simpa [hl, hep] using ih registry hinv
      | true =>
        simpa [hl, hep] using
          ih (runRegCalls d.regCalls registry) (foldl_register_inv d.regCalls registry hinv)

/-- The scripting-bridge phase preserves the registry invariant. -/
theorem python_inv (env : PythonEnv) (registry : Registry)
    (hinv : RegistryInv registry) :
    RegistryInv (PluginManager_Initialize_Python env registry).registry := by
  simp only [PluginManager_Initialize_Python]
  split
  · exact hinv
  · split
    · exact hinv
    · split
      · exact hinv
      · split
        · exact foldl_register_inv env.pyRegCalls registry hinv
        · exact foldl_register_inv env.pyRegCalls registry hinv

/-- Bring-up preserves the registry invariant. -/
theorem bringup_inv (envB : List VMMDLL_PLUGIN_REGINFO) (envD : List DllCandidate)
    (envP : PythonEnv) (registry : Registry) (hinv : RegistryInv registry) :
    RegistryInv (PluginManager_InitializeAll envB envD envP registry).snd := by
  simp only [PluginManager_InitializeAll]
  split
  · exact python_inv envP _ (dllScan_inv envD _ (foldl_register_inv envB registry hinv))
  · exact hinv

/-- C8: on every reachable registry state — and hence across registration,
dispatch, notification, bring-up and teardown, none of which produces a
state outside `Reachable` — all module names are pairwise distinct under
case-insensitive comparison and every entry has at least one scope flag set
and a non-null list capability. -/
theorem C8_registry_invariant (registry : Registry) (hr : Reachable registry) :
    RegistryInv registry := by
  induction hr with
  | empty => exact ⟨List.Pairwise.nil, fun e he => absurd he (List.not_mem_nil e)⟩
  | register r ri hr ih => exact register_preserves_inv r ri ih
  | bringup envB envD envP r hr ih => exact bringup_inv envB envD envP r ih
  | teardown r hr ih =>
    rw [close_registry_drained r]
    exact ⟨List.Pairwise.nil, fun e he => absurd he (List.not_mem_nil e)⟩

/-- C8 witness: the state reached by one successful registration satisfies
the invariant. -/
theorem C8_registry_invariant_witness : Reachable c8State ∧ RegistryInv c8State :=
  ⟨Reachable.register [] (some riWit) Reachable.empty,
   C8_registry_invariant c8State (Reachable.register [] (some riWit) Reachable.empty)⟩

/-! ## C9 -/

/-- Every context built for a module backed by a native library carries a
null process-context reference. -/
theorem contextInit_native_no_process (pm : PLUGIN_LISTENTRY)
    (pProcess : Option VMM_PROCESS) (wszPath : String) (hdll : pm.hDLL ≠ none) :
    (PluginManager_ContextInit pm pProcess wszPath).pProcess = none := by
  cases hd : pm.hDLL with
  | none => exact absurd hd hdll
  | some hh => simp [PluginManager_ContextInit, hd]

/-- Every invocation traced by the List dispatcher targets a registry entry
and carries that entry's context. -/
theorem list_trace_shape (registry : Registry) (pProcess : Option VMM_PROCESS)
    (wszModule : String) (wszPath : Option String) (pFileList : FileList)
    (h : Option Nat) (ctx : VMMDLL_PLUGIN_CONTEXT)
    (hmem : (h, ctx) ∈ (PluginManager_List registry pProcess wszModule wszPath pFileList).2.2) :
    ∃ pm, pm ∈ registry ∧ h = pm.hDLL ∧
      ctx = PluginManager_ContextInit pm pProcess (wszPath.getD "") := by
  induction registry with
  | nil => simp [PluginManager_List] at hmem
  | cons pm rest ih =>
    by_cases hs : scopeMatch pProcess pm = false
    · have hmem' : (h, ctx) ∈ (PluginManager_List rest pProcess wszModule wszPath pFileList).2.2 := by
        simpa [PluginManager_List, hs] using hmem
      obtain ⟨q, hq, h1, h2⟩ := ih hmem'
      exact ⟨q, List.mem_cons_of_mem pm hq, h1, h2⟩
    · cases hf : pm.pfnList with
      | none =>
        have hmem' : (h, ctx) ∈ (PluginManager_List rest pProcess wszModule wszPath pFileList).2.2 := by
          simpa [PluginManager_List, hs, hf] using hmem
        obtain ⟨q, hq, h1, h2⟩ := ih hmem'
        exact ⟨q, List.mem_cons_of_mem pm hq, h1, h2⟩
      | some f =>
        by_cases hn : wcsicmpEq wszModule pm.wszModuleName = true
        · have hpair : h = pm.hDLL ∧ ctx = PluginManager_ContextInit pm pProcess (wszPath.getD "") := by
            simpa [PluginManager_List, hs, hf, hn] using hmem
          exact ⟨pm, List.mem_cons_self pm rest, hpair.1, hpair.2⟩
        · have hmem' : (h, ctx) ∈ (PluginManager_List rest pProcess wszModule wszPath pFileList).2.2 := by
            simpa [PluginManager_List, hs, hf, hn] using hmem
          obtain ⟨q, hq, h1, h2⟩ := ih hmem'
          exact ⟨q, List.mem_cons_of_mem pm hq, h1, h2⟩

/-- Every invocation traced by the Read dispatcher targets a registry entry
and carries that entry's context. -/
theorem read_trace_shape (registry : Registry) (pProcess : Option VMM_PROCESS)
    (wszModule : String) (wszPath : Option String) (cb cbOffset : Nat)
    (h : Option Nat) (ctx : VMMDLL_PLUGIN_CONTEXT)
    (hmem : (h, ctx) ∈ (PluginManager_Read registry pProcess wszModule wszPath cb cbOffset).2.2) :
    ∃ pm, pm ∈ registry ∧ h = pm.hDLL ∧
      ctx = PluginManager_ContextInit pm pProcess (wszPath.getD "") := by
  induction registry with
  | nil => simp [PluginManager_Read] at hmem
  | cons pm rest ih =>
    by_cases hs : scopeMatch pProcess pm = false
    · have hmem' : (h, ctx) ∈ (PluginManager_Read rest pProcess wszModule wszPath cb cbOffset).2.2 := by
        simpa [PluginManager_Read, hs] using hmem
      obtain ⟨q, hq, h1, h2⟩ := ih hmem'
      exact ⟨q, List.mem_cons_of_mem pm hq, h1, h2⟩
    · cases hf : pm.pfnRead with
      | none =>
        have hmem' : (h, ctx) ∈ (PluginManager_Read rest pProcess wszModule wszPath cb cbOffset).2.2 := by
          simpa [PluginManager_Read, hs, hf] using hmem
        obtain ⟨q, hq, h1, h2⟩ := ih hmem'
        exact ⟨q, List.mem_cons_of_mem pm hq, h1, h2⟩
      | some f =>
        by_cases hn : wcsicmpEq wszModule pm.wszModuleName = true
        · have hpair : h = pm.hDLL ∧ ctx = PluginManager_ContextInit pm pProcess (wszPath.getD "") := by
            simpa [PluginManager_Read, hs, hf, hn] using hmem
          exact ⟨pm, List.mem_cons_self pm rest, hpair.1, hpair.2⟩
        · have hmem' : (h, ctx) ∈ (PluginManager_Read rest pProcess wszModule wszPath cb cbOffset).2.2 := by
            simpa [PluginManager_Read, hs, hf, hn] using hmem
          obtain ⟨q, hq, h1, h2⟩ := ih hmem'
          exact ⟨q, List.mem_cons_of_mem pm hq, h1, h2⟩

/-- Every invocation traced by the Write dispatcher targets a registry entry
and carries that entry's context. -/
theorem write_trace_shape (registry : Registry) (pProcess : Option VMM_PROCESS)
    (wszModule : String) (wszPath : Option String) (cb cbOffset : Nat)
    (h : Option Nat) (ctx : VMMDLL_PLUGIN_CONTEXT)
    (hmem : (h, ctx) ∈ (PluginManager_Write registry pProcess wszModule wszPath cb cbOffset).2.2) :
    ∃ pm, pm ∈ registry ∧ h = pm.hDLL ∧
      ctx = PluginManager_ContextInit pm pProcess (wszPath.getD "") := by
  induction registry with
  | nil => simp [PluginManager_Write] at hmem
  | cons pm rest ih =>
    by_cases hs : scopeMatch pProcess pm = false
    · have hmem' : (h, ctx) ∈ (PluginManager_Write rest pProcess wszModule wszPath cb cbOffset).2.2 := by
        simpa [PluginManager_Write, hs] using hmem
      obtain ⟨q, hq, h1, h2⟩ := ih hmem'
      exact ⟨q, List.mem_cons_of_mem pm hq, h1, h2⟩
    · cases hf : pm.pfnWrite with
      | none =>
        have hmem' : (h, ctx) ∈ (PluginManager_Write rest pProcess wszModule wszPath cb cbOffset).2.2 := by
          simpa [PluginManager_Write, hs, hf] using hmem
        obtain ⟨q, hq, h1, h2⟩ := ih hmem'
        exact ⟨q, List.mem_cons_of_mem pm hq, h1, h2⟩
      | some f =>
        by_cases hn : wcsicmpEq wszModule pm.wszModuleName = true
        · have hpair : h = pm.hDLL ∧ ctx = PluginManager_ContextInit pm pProcess (wszPath.getD "") := by
            simpa [PluginManager_Write, hs, hf, hn] using hmem
          exact ⟨pm, List.mem_cons_self pm rest, hpair.1, hpair.2⟩
        · have hmem' : (h, ctx) ∈ (PluginManager_Write rest pProcess wszModule wszPath cb cbOffset).2.2 := by
            simpa [PluginManager_Write, hs, hf, hn] using hmem
          obtain ⟨q, hq, h1, h2⟩ := ih hmem'
          exact ⟨q, List.mem_cons_of_mem pm hq, h1, h2⟩

/-- C9: on every List, Read or Write dispatch, whenever the invoked target
is backed by a native library (its handle is non-null), the call context
handed to it carries a null process-context reference — for every process
argument. -/
theorem C9_context_isolation (registry : Registry) (pProcess : Option VMM_PROCESS)
    (wszModule : String) (wszPath : Option String) (pFileList : FileList)
    (cb cbOffset : Nat) (h : Option Nat) (ctx : VMMDLL_PLUGIN_CONTEXT)
    (hmem :
      (h, ctx) ∈ (PluginManager_List registry pProcess wszModule wszPath pFileList).2.2 ∨
      (h, ctx) ∈ (PluginManager_Read registry pProcess wszModule wszPath cb cbOffset).2.2 ∨
      (h, ctx) ∈ (PluginManager_Write registry pProcess wszModule wszPath cb cbOffset).2.2)
    (hnative : h ≠ none) : ctx.pProcess = none := by
  rcases hmem with hm | hm | hm
  · obtain ⟨pm, hq, h1, h2⟩ :=
      list_trace_shape registry pProcess wszModule wszPath pFileList h ctx hm
    rw [h2]
    exact contextInit_native_no_process pm pProcess (wszPath.getD "") (h1 ▸ hnative)
  · obtain ⟨pm, hq, h1, h2⟩ :=
      read_trace_shape registry pProcess wszModule wszPath cb cbOffset h ctx hm
    rw [h2]
    exact contextInit_native_no_process pm pProcess (wszPath.getD "") (h1 ▸ hnative)
  · obtain ⟨pm, hq, h1, h2⟩ :=
      write_trace_shape registry pProcess wszModule wszPath cb cbOffset h ctx hm
    rw [h2]
    exact contextInit_native_no_process pm pProcess (wszPath.getD "") (h1 ▸ hnative)

/-- C9 witness: listing the native-backed module `entryNative` with a
process supplied traces one invocation whose context has a null
process-context reference. -/
theorem C9_context_isolation_witness :
    ((some 7, ctxNative) ∈
        (PluginManager_List [entryNative] (some procWit) "pym" none 0).2.2 ∨
      (some 7, ctxNative) ∈
        (PluginManager_Read [entryNative] (some procWit) "pym" none 0 0).2.2 ∨
      (some 7, ctxNative) ∈
        (PluginManager_Write [entryNative] (some procWit) "pym" none 0 0).2.2) ∧
    (some 7 : Option Nat) ≠ none ∧ ctxNative.pProcess = none :=
  ⟨Or.inl (by decide), by decide,
   C9_context_isolation [entryNative] (some procWit) "pym" none 0 0 0
     (some 7) ctxNative (Or.inl (by decide)) (by decide)⟩
